import Mathlib

/-!
Verification of the stream-discord-bot core: token lifecycle, webhook
signature verification, webhook dispatch, and the notification retry
pipeline, shallowly embedded from the TypeScript sources.

Bytes are modelled as `List Nat` (each element a byte value).  Machine
32-bit words are `Nat` reduced modulo `2^32` explicitly.  Fallible
operations (the Node `crypto.timingSafeEqual` throwing on length mismatch,
token errors) are modelled with `Option` / `Except`.
-/

/-- A byte string: list of byte values. -/
abbrev Bytes := List Nat

/-- UTF-8 bytes of an ASCII string literal (all source literals are ASCII). -/
def ascii (s : String) : Bytes := s.data.map Char.toNat

namespace Sha256

/-- 2^32, the 32-bit word modulus. -/
def M32 : Nat := 4294967296

/-- Right rotation of a 32-bit word. -/
def rotr (n x : Nat) : Nat := ((x >>> n) ||| (x <<< (32 - n))) % M32

/-- SHA-256 big sigma 0. -/
def bsig0 (x : Nat) : Nat := rotr 2 x ^^^ rotr 13 x ^^^ rotr 22 x

/-- SHA-256 big sigma 1. -/
def bsig1 (x : Nat) : Nat := rotr 6 x ^^^ rotr 11 x ^^^ rotr 25 x

/-- SHA-256 small sigma 0. -/
def ssig0 (x : Nat) : Nat := rotr 7 x ^^^ rotr 18 x ^^^ (x >>> 3)

/-- SHA-256 small sigma 1. -/
def ssig1 (x : Nat) : Nat := rotr 17 x ^^^ rotr 19 x ^^^ (x >>> 10)

/-- SHA-256 choice function (`~x` is `x ^^^ 0xffffffff` on 32-bit words). -/
def ch (x y z : Nat) : Nat := (x &&& y) ^^^ ((x ^^^ 4294967295) &&& z)

/-- SHA-256 majority function. -/
def maj (x y z : Nat) : Nat := (x &&& y) ^^^ (x &&& z) ^^^ (y &&& z)

/-- The 64 SHA-256 round constants (FIPS 180-4, written in decimal). -/
def K : List Nat :=
  [1116352408, 1899447441, 3049323471, 3921009573, 961987163, 1508970993,
   2453635748, 2870763221, 3624381080, 310598401, 607225278, 1426881987,
   1925078388, 2162078206, 2614888103, 3248222580, 3835390401, 4022224774,
   264347078, 604807628, 770255983, 1249150122, 1555081692, 1996064986,
   2554220882, 2821834349, 2952996808, 3210313671, 3336571891, 3584528711,
   113926993, 338241895, 666307205, 773529912, 1294757372, 1396182291,
   1695183700, 1986661051, 2177026350, 2456956037, 2730485921, 2820302411,
   3259730800, 3345764771, 3516065817, 3600352804, 4094571909, 275423344,
   430227734, 506948616, 659060556, 883997877, 958139571, 1322822218,
   1537002063, 1747873779, 1955562222, 2024104815, 2227730452, 2361852424,
   2428436474, 2756734187, 3204031479, 3329325298]

/-- The SHA-256 hash state: eight 32-bit words. -/
structure HState where
  h0 : Nat
  h1 : Nat
  h2 : Nat
  h3 : Nat
  h4 : Nat
  h5 : Nat
  h6 : Nat
  h7 : Nat

/-- The SHA-256 initial hash value (FIPS 180-4, written in decimal). -/
def initH : HState :=
  ⟨1779033703, 3144134277, 1013904242, 2773480762,
   1359893119, 2600822924, 528734635, 1541459225⟩

/-- Big-endian 8-byte encoding of a number (used for the message bit length). -/
def be64 (n : Nat) : Bytes :=
  [(n >>> 56) % 256, (n >>> 48) % 256, (n >>> 40) % 256, (n >>> 32) % 256,
   (n >>> 24) % 256, (n >>> 16) % 256, (n >>> 8) % 256, n % 256]

/-- Big-endian 4-byte encoding of a 32-bit word. -/
def be32 (n : Nat) : Bytes :=
  [(n >>> 24) % 256, (n >>> 16) % 256, (n >>> 8) % 256, n % 256]

/-- SHA-256 padding: append the byte 128, zeros to 56 mod 64, then the 64-bit bit length. -/
def pad (msg : Bytes) : Bytes :=
  msg ++ [128] ++ List.replicate ((120 - ((msg.length + 1) % 64)) % 64) 0
      ++ be64 (8 * msg.length)

/-- Split a byte list into successive 64-byte chunks, with structural fuel
(`fuel` at least the list length suffices, since a nonempty list shrinks by at
least one element per step). -/
def chunksGo (fuel : Nat) (l : Bytes) : List Bytes :=
  match fuel, l with
  | _, [] => []
  | 0, _ => []
  | fuel + 1, b :: rest => (b :: rest).take 64 :: chunksGo fuel ((b :: rest).drop 64)

/-- Split a byte list into 64-byte chunks (the input length is a multiple of 64). -/
def chunks64 (l : Bytes) : List Bytes := chunksGo l.length l

/-- Combine 4 consecutive bytes into big-endian 32-bit words. -/
def bytesToWords : Bytes → List Nat
  | b0 :: b1 :: b2 :: b3 :: rest =>
      (b0 <<< 24 + b1 <<< 16 + b2 <<< 8 + b3) :: bytesToWords rest
  | _ => []

/-- One schedule-extension step: append word `w[i] = ssig1 w[i-2] + w[i-7] + ssig0 w[i-15] + w[i-16]`. -/
def schedStep (w : List Nat) : List Nat :=
  w ++ [(ssig1 (w.getD (w.length - 2) 0) + w.getD (w.length - 7) 0
        + ssig0 (w.getD (w.length - 15) 0) + w.getD (w.length - 16) 0) % M32]

/-- Extend the 16-word chunk schedule by `n` further words. -/
def extendSched : Nat → List Nat → List Nat
  | 0, w => w
  | n + 1, w => extendSched n (schedStep w)

/-- One SHA-256 compression round on the working variables `(a,…,h)`. -/
def round (st : HState) (kw : Nat × Nat) : HState :=
  let t1 := (st.h7 + bsig1 st.h4 + ch st.h4 st.h5 st.h6 + kw.1 + kw.2) % M32
  let t2 := (bsig0 st.h0 + maj st.h0 st.h1 st.h2) % M32
  ⟨(t1 + t2) % M32, st.h0, st.h1, st.h2, (st.h3 + t1) % M32, st.h4, st.h5, st.h6⟩

/-- Compress one 64-byte chunk into the running hash state. -/
def compress (st : HState) (chunk : Bytes) : HState :=
  let w := extendSched 48 (bytesToWords chunk)
  let r := (K.zip w).foldl round st
  ⟨(st.h0 + r.h0) % M32, (st.h1 + r.h1) % M32, (st.h2 + r.h2) % M32, (st.h3 + r.h3) % M32,
   (st.h4 + r.h4) % M32, (st.h5 + r.h5) % M32, (st.h6 + r.h6) % M32, (st.h7 + r.h7) % M32⟩

/-- Serialize the hash state as 32 big-endian bytes. -/
def stateBytes (st : HState) : Bytes :=
  be32 st.h0 ++ be32 st.h1 ++ be32 st.h2 ++ be32 st.h3 ++
  be32 st.h4 ++ be32 st.h5 ++ be32 st.h6 ++ be32 st.h7

/-- SHA-256 of a byte string (FIPS 180-4). -/
def sha256 (msg : Bytes) : Bytes :=
  stateBytes ((chunks64 (pad msg)).foldl compress initH)

end Sha256

namespace Hmac

open Sha256

/-- Pad or hash an HMAC key down to the 64-byte block size. -/
def normKey (key : Bytes) : Bytes :=
  let k0 := if 64 < key.length then sha256 key else key
  k0 ++ List.replicate (64 - k0.length) 0

/-- HMAC-SHA256 (RFC 2104) of `msg` under `key`; 92 and 54 are the opad and
ipad bytes. -/
def hmacSha256 (key msg : Bytes) : Bytes :=
  let k := normKey key
  sha256 ((k.map (fun b => b ^^^ 92)) ++ sha256 ((k.map (fun b => b ^^^ 54)) ++ msg))

end Hmac

/-- One lowercase hex digit character (as a byte): `0`–`9`, `a`–`f`. -/
def hexDigit (n : Nat) : Nat := if n < 10 then 48 + n else 87 + n

/-- Lowercase hex encoding of one byte: two hex digit characters. -/
def hexByte (b : Nat) : Bytes := [hexDigit (b / 16), hexDigit (b % 16)]

/-- Lowercase hex encoding of a byte string (the hex digest of the Node hmac). -/
def toHex : Bytes → Bytes
  | [] => []
  | b :: rest => hexByte b ++ toHex rest

/-- Flip one bit (bit `k` of the byte at index `i`) of a byte string. -/
def flipBit (l : Bytes) (i k : Nat) : Bytes :=
  l.set i (l.getD i 0 ^^^ (1 <<< k))

/-- The Node `crypto.timingSafeEqual`: compares two buffers of equal length in
constant time, returning whether they are byte-identical; throws a `RangeError`
(modelled as `none`) when the lengths differ. -/
def timingSafeEqual (a b : Bytes) : Option Bool :=
  if a.length = b.length then some (decide (a = b)) else none

namespace TwitchApiClient

/-- The in-memory Twitch app token (`TwitchToken` in `auth/twitch/auth.ts`).
Timestamps are epoch milliseconds, `expiresIn` is in seconds; both are `Int`
since JS subtraction `expiresIn - 60` may go negative. -/
structure TwitchToken where
  accessToken : Bytes
  expiresIn : Int
  obtainmentTimestamp : Int

/-- `TwitchApiClient.isTokenExpired`: a missing token is expired; otherwise the
token is expired exactly when `now` is strictly past
`obtainmentTimestamp + (expiresIn - 60) * 1000`. -/
def isTokenExpired (token : Option TwitchToken) (now : Int) : Bool :=
  match token with
  | none => true
  | some t => now > t.obtainmentTimestamp + (t.expiresIn - 60) * 1000

/-- The signature string the server computes:
`sha256=` ++ lowercase hex of `HMAC-SHA256(secret, messageId ++ timestamp ++ body)`
(the three successive `hmac.update` calls concatenate). -/
def computedSignature (secret messageId timestamp body : Bytes) : Bytes :=
  ascii "sha256=" ++ toHex (Hmac.hmacSha256 secret (messageId ++ timestamp ++ body))

/-- `TwitchApiClient.verifyTwitchSignature`: compares the computed signature
with the provided header via `crypto.timingSafeEqual` (which throws — `none` —
on buffers of different length). -/
def verifyTwitchSignature (secret messageId timestamp body providedSignature : Bytes) :
    Option Bool :=
  timingSafeEqual (computedSignature secret messageId timestamp body) providedSignature

end TwitchApiClient

namespace KickApiClient

/-- `KickApiClient.verifyKickSignature`: with no fetched public key the check
fails; otherwise the RSA-SHA256 verification (the Node `crypto.createVerify`,
abstracted as the parameter `rsaVerify (key) (data) (signature)`) runs over
`messageId ++ "." ++ timestamp ++ "." ++ body`. -/
def verifyKickSignature (publicKey : Option Bytes)
    (rsaVerify : Bytes → Bytes → Bytes → Bool)
    (messageId timestamp body providedSignature : Bytes) : Bool :=
  match publicKey with
  | none => false
  | some pk =>
      rsaVerify pk (messageId ++ ascii "." ++ timestamp ++ ascii "." ++ body) providedSignature

end KickApiClient

/-- The two streaming platforms. -/
inductive Platform where
  | twitch
  | kick
deriving DecidableEq

/-- Observable actions of a webhook request handler, in execution order. -/
inductive ServerAction where
  /-- An HTTP response is sent: status code and optional body. -/
  | respond (status : Nat) (body : Option Bytes)
  /-- The enrichment pipeline (`sendMessage platform userId`) is invoked. -/
  | startPipeline (platform : Platform) (userId : Bytes)
  /-- Signature verification is attempted for the request. -/
  | verifyAttempt (platform : Platform)
  /-- An exception escapes the handler (no response is sent by the handler). -/
  | throwUncaught
deriving DecidableEq

/-- JS truthiness of a header value: absent (`undefined`) and the empty string
are falsy. -/
def headerFalsy : Option Bytes → Bool
  | none => true
  | some b => b.isEmpty

/-- An inbound `POST /events/twitch` request: the four EventSub headers, the raw
body bytes (the signature is computed over these), and the relevant fields of
the parsed JSON body.  `bodyEventBroadcasterUserId = none` models a body whose
`event.broadcaster_user_id` path is unreadable (reading it throws). -/
structure TwitchRequest where
  messageId : Option Bytes
  timestamp : Option Bytes
  signature : Option Bytes
  messageType : Option Bytes
  rawBody : Bytes
  bodyChallenge : Option Bytes
  bodyEventBroadcasterUserId : Option Bytes

/-- The `POST /events/twitch` handler of `createServer` as an action trace:
header presence check, signature verification (403 on failure, uncaught throw
on a length mismatch), then the message-type state machine. -/
def handleTwitchPost (secret : Bytes) (req : TwitchRequest) : List ServerAction :=
  if headerFalsy req.messageId || headerFalsy req.timestamp || headerFalsy req.signature then
    [.respond 400 none]
  else
    match TwitchApiClient.verifyTwitchSignature secret (req.messageId.getD [])
        (req.timestamp.getD []) req.rawBody (req.signature.getD []) with
    | none => [.verifyAttempt .twitch, .throwUncaught]
    | some false => [.verifyAttempt .twitch, .respond 403 none]
    | some true =>
      if req.messageType = some (ascii "webhook_callback_verification") then
        [.verifyAttempt .twitch, .respond 200 req.bodyChallenge]
      else if req.messageType = some (ascii "revocation") then
        [.verifyAttempt .twitch, .respond 200 none]
      else if req.messageType = some (ascii "notification") then
        match req.bodyEventBroadcasterUserId with
        | some bid => [.verifyAttempt .twitch, .respond 200 none, .startPipeline .twitch bid]
        | none => [.verifyAttempt .twitch, .throwUncaught]
      else if ¬ headerFalsy req.messageType then
        [.verifyAttempt .twitch, .respond 200 none]
      else
        [.verifyAttempt .twitch, .respond 400 none]

/-- An inbound `POST /events/kick` request.  `bodyBroadcasterUserId` is the
stringified value of the fallback chain
`body.broadcaster_user_id || body.user_id || body.channel_id`
(`none` when every alternative is falsy). -/
structure KickRequest where
  messageId : Option Bytes
  timestamp : Option Bytes
  signature : Option Bytes
  eventType : Option Bytes
  rawBody : Bytes
  bodyBroadcasterUserId : Option Bytes

/-- The `POST /events/kick` handler of `createServer` as an action trace.  Note
that only the message id, timestamp and signature headers are checked for the
400 rejection; `kick-event-type` is only consulted after verification. -/
def handleKickPost (publicKey : Option Bytes)
    (rsaVerify : Bytes → Bytes → Bytes → Bool) (req : KickRequest) : List ServerAction :=
  if headerFalsy req.messageId || headerFalsy req.timestamp || headerFalsy req.signature then
    [.respond 400 none]
  else if KickApiClient.verifyKickSignature publicKey rsaVerify (req.messageId.getD [])
      (req.timestamp.getD []) req.rawBody (req.signature.getD []) then
    if req.eventType = some (ascii "livestream.status.updated")
        ∨ req.eventType = some (ascii "stream.started") then
      match req.bodyBroadcasterUserId with
      | some bid => [.verifyAttempt .kick, .respond 200 none, .startPipeline .kick bid]
      | none => [.verifyAttempt .kick, .respond 200 none]
    else
      [.verifyAttempt .kick, .respond 200 none]
  else
    [.verifyAttempt .kick, .respond 403 none]

/-- No response is ever sent after the pipeline has been started, anywhere in
the trace. -/
def noRespondAfterStart : List ServerAction → Bool
  | [] => true
  | .startPipeline _ _ :: rest =>
      rest.all (fun a => match a with | .respond _ _ => false | _ => true)
  | _ :: rest => noRespondAfterStart rest

/-- Whether a trace contains a signature-verification attempt. -/
def hasVerifyAttempt (trace : List ServerAction) : Bool :=
  trace.any (fun a => match a with | .verifyAttempt _ => true | _ => false)

/-- Whether a trace contains a response with the given status code. -/
def hasRespondStatus (status : Nat) (trace : List ServerAction) : Bool :=
  trace.any (fun a => match a with | .respond s _ => s = status | _ => false)

/-- The platform-agnostic enrichment record built by `getStreamWithRetry`
(`NormalizedStreamData` in `message.ts`). -/
structure NormalizedStreamData where
  streamTitle : Bytes
  streamCategory : Bytes
  username : Bytes
  streamUrl : Bytes
  streamThumbnail : Bytes
  userThumbnail : Bytes
deriving DecidableEq

/-- The outcome of one enrichment attempt in the retry loop of
`getStreamWithRetry`: a normalized record on success; `notLive` for the
not-live / not-found responses (the `continue` branches, which sleep `delay`
before the next attempt); `thrown` for a transport error caught by the
`catch` block (which retries immediately, without sleeping). -/
inductive AttemptResult where
  | success (data : NormalizedStreamData)
  | notLive
  | thrown
deriving DecidableEq

/-- Whether an attempt produced no usable data. -/
def AttemptResult.isFail : AttemptResult → Bool
  | .success _ => false
  | .notLive => true
  | .thrown => true

/-- What a run of the retry loop did: the value returned, how many attempts
ran, and the total milliseconds spent sleeping between attempts. -/
structure RetryOutcome where
  result : Option NormalizedStreamData
  attemptsMade : Nat
  totalDelay : Nat
deriving DecidableEq

/-- The retry loop of `getStreamWithRetry`, indexed by the current attempt
number, the remaining attempt budget, and the sleep time accumulated so far.
`outcome n` abstracts what the platform lookups of attempt `n` produce. -/
def retryGo (outcome : Nat → AttemptResult) (delay : Nat) :
    Nat → Nat → Nat → RetryOutcome
  | attempt, 0, slept => ⟨none, attempt - 1, slept⟩
  | attempt, r + 1, slept =>
    match outcome attempt with
    | .success d => ⟨some d, attempt, slept⟩
    | .notLive => retryGo outcome delay (attempt + 1) r (slept + delay)
    | .thrown => retryGo outcome delay (attempt + 1) r slept

/-- `getStreamWithRetry(platform, userId, retries, delay)` from `message.ts`:
attempts run from 1 up to `retries`; when the budget is exhausted the loop
falls through and returns null. -/
def getStreamWithRetry (outcome : Nat → AttemptResult) (retries delay : Nat) : RetryOutcome :=
  retryGo outcome delay 1 retries 0

/-- The Discord webhook payload fields built by `sendMessage` in `message.ts`. -/
structure DiscordMessage where
  content : Bytes
  embedTitle : Bytes
  embedGame : Bytes
  authorName : Bytes
  authorIcon : Bytes
  embedUrl : Bytes
  imageUrl : Bytes
  color : Nat
  botUsername : Bytes
deriving DecidableEq

/-- The payload `sendMessage` posts for one normalized record. -/
def buildDiscordMessage (platform : Platform) (data : NormalizedStreamData) : DiscordMessage :=
  { content := data.username ++ ascii " just went live at " ++ data.streamUrl ++ ascii " !"
    embedTitle := data.streamTitle
    embedGame := data.streamCategory
    authorName := data.username
    authorIcon := data.userThumbnail
    embedUrl := data.streamUrl
    imageUrl := data.streamThumbnail
    color := match platform with | .twitch => 9520895 | .kick => 5439284
    botUsername := match platform with | .twitch => ascii "TwitchBot" | .kick => ascii "KickBot" }

/-- `sendMessage(platform, userId)`: runs the retry pipeline with the fixed
budget of 6 attempts and 5000 ms delay; on a null result it only logs and
returns (no Discord POST, modelled as `none`); otherwise it posts the built
payload (any delivery failure is caught and logged, never raised). -/
def sendMessage (platform : Platform) (outcome : Nat → AttemptResult) : Option DiscordMessage :=
  match (getStreamWithRetry outcome 6 5000).result with
  | none => none
  | some data => some (buildDiscordMessage platform data)

namespace KickOAuth

/-- The persisted/in-memory Kick user token (`KickToken` in the OAuth-variant
client). -/
structure KickToken where
  accessToken : Bytes
  refreshToken : Bytes
  expiresIn : Int
  obtainmentTimestamp : Int

/-- `KickApiClient.isTokenExpired` of the OAuth variant: identical formula to
the Twitch client. -/
def isTokenExpired (token : Option KickToken) (now : Int) : Bool :=
  match token with
  | none => true
  | some t => now > t.obtainmentTimestamp + (t.expiresIn - 60) * 1000

/-- The token state the OAuth-variant client owns: the in-memory token and the
contents of the persisted token file (`none` = no file on disk). -/
structure ClientState where
  userToken : Option KickToken
  tokenFile : Option KickToken

/-- A parsed token-endpoint success body. -/
structure RawTokens where
  access_token : Bytes
  refresh_token : Bytes
  expires_in : Int

/-- Observable effects of the token-lifecycle methods. -/
inductive TokenEffect where
  /-- One HTTP POST of the refresh-token grant was issued. -/
  | fetchRefresh
deriving DecidableEq

/-- `clearToken`: null the in-memory token and delete the persisted file. -/
def clearToken (_s : ClientState) : ClientState :=
  { userToken := none, tokenFile := none }

/-- `saveToken`: store the response tokens in memory and on disk, stamping the
obtainment time. -/
def saveToken (_s : ClientState) (tokens : RawTokens) (now : Int) : ClientState :=
  let t : KickToken :=
    { accessToken := tokens.access_token
      refreshToken := tokens.refresh_token
      expiresIn := tokens.expires_in
      obtainmentTimestamp := now }
  { userToken := some t, tokenFile := some t }

/-- `KickApiClient.refreshToken`: with no stored refresh token it only warns;
otherwise it issues exactly one refresh-token grant (`response = none` models a
non-2xx reply), clearing the stored token on failure and saving the new tokens
on success.  The effect list records the HTTP calls made. -/
def refreshToken (s : ClientState) (response : Option RawTokens) (now : Int) :
    ClientState × List TokenEffect :=
  match s.userToken with
  | none => (s, [])
  | some t =>
    if t.refreshToken.isEmpty then (s, [])
    else
      match response with
      | none => (clearToken s, [.fetchRefresh])
      | some tokens => (saveToken s tokens now, [.fetchRefresh])

/-- `KickApiClient.getValidAccessToken` of the OAuth variant: errors demand
re-authentication; an expired token triggers one refresh whose failure leaves
no token and therefore errors. -/
def getValidAccessToken (s : ClientState) (now : Int) (refreshResponse : Option RawTokens) :
    ClientState × Except String Bytes :=
  match s.userToken with
  | none => (s, .error "No Kick user token found. Please authenticate via the dashboard.")
  | some t =>
    if isTokenExpired (some t) now then
      let s2 := (refreshToken s refreshResponse now).1
      match s2.userToken with
      | none => (s2, .error "Failed to refresh Kick token. Needs re-authentication.")
      | some t2 => (s2, .ok t2.accessToken)
    else
      (s, .ok t.accessToken)

end KickOAuth

namespace Singleton

/-- The static singleton state of a platform client class: the resolved
instance, the in-flight construction promise, and how many times the
initialization logic has started.  Clients and promises are identified by
numbers; the promise with id `n` resolves to the client with id `n`. -/
structure State where
  inst : Option Nat
  promise : Option Nat
  initCount : Nat

/-- The static state before any call. -/
def initial : State := ⟨none, none, 0⟩

/-- One event of the single-threaded event loop: a `getInstance()` call (its
synchronous section runs atomically: check `instance`, check
`instancePromise`, possibly create and store a new promise), or the completion
of the in-flight initialization (which stores the instance). -/
inductive Event where
  | call
  | complete

/-- The synchronous section of `getInstance()`: returns the id of the client
the call resolves to, creating the initialization promise when neither an
instance nor a promise exists yet. -/
def getInstanceStep (s : State) : State × Nat :=
  match s.inst with
  | some c => (s, c)
  | none =>
    match s.promise with
    | some p => (s, p)
    | none => (⟨none, some s.initCount, s.initCount + 1⟩, s.initCount)

/-- Completion of the initialization promise: `Class.instance = client`. -/
def completeStep (s : State) : State :=
  match s.promise with
  | some p => { s with inst := some p }
  | none => s

/-- Run an arbitrary interleaving of calls and the completion, collecting the
id each call resolves to. -/
def runEvents : State → List Event → State × List Nat
  | s, [] => (s, [])
  | s, .call :: evs =>
    let (s2, r) := getInstanceStep s
    let (s3, rets) := runEvents s2 evs
    (s3, r :: rets)
  | s, .complete :: evs => runEvents (completeStep s) evs

end Singleton

/-! ## Helper lemmas -/

/-- The SHA-256 digest always has 32 bytes. -/
theorem Sha256.sha256_length (msg : Bytes) : (Sha256.sha256 msg).length = 32 := by
  simp [Sha256.sha256, Sha256.stateBytes, Sha256.be32]

/-- The HMAC-SHA256 digest always has 32 bytes. -/
theorem Hmac.hmacSha256_length (key msg : Bytes) : (Hmac.hmacSha256 key msg).length = 32 :=
  Sha256.sha256_length _

/-- Hex encoding doubles the length. -/
theorem toHex_length (l : Bytes) : (toHex l).length = 2 * l.length := by
  induction l with
  | nil => rfl
  | cons b rest ih => simp [toHex, hexByte, ih]; ring

/-- The computed signature string always has 71 bytes (`sha256=` plus 64 hex chars). -/
theorem TwitchApiClient.computedSignature_length (secret messageId timestamp body : Bytes) :
    (TwitchApiClient.computedSignature secret messageId timestamp body).length = 71 := by
  simp [TwitchApiClient.computedSignature, toHex_length, Hmac.hmacSha256_length, ascii]

/-- The computed signature string is never empty. -/
theorem TwitchApiClient.computedSignature_ne_nil (secret messageId timestamp body : Bytes) :
    TwitchApiClient.computedSignature secret messageId timestamp body ≠ [] := by
  intro h
  have := TwitchApiClient.computedSignature_length secret messageId timestamp body
  rw [h] at this
  simp at this

/-- Verification of the exact computed signature succeeds. -/
theorem TwitchApiClient.verify_computedSignature (secret messageId timestamp body : Bytes) :
    TwitchApiClient.verifyTwitchSignature secret messageId timestamp body
      (TwitchApiClient.computedSignature secret messageId timestamp body) = some true := by
  simp [TwitchApiClient.verifyTwitchSignature, timingSafeEqual]

/-- XOR with a nonzero mask changes a number. -/
theorem xor_ne_self_of_ne_zero {b m : Nat} (hm : m ≠ 0) : b ^^^ m ≠ b := by
  intro h
  have h2 : b ^^^ (b ^^^ m) = b ^^^ b := congrArg (b ^^^ ·) h
  rw [← Nat.xor_assoc, Nat.xor_self, Nat.zero_xor] at h2
  exact hm (by omega)

/-- Setting an in-range index to a different value changes a list. -/
theorem set_ne_of_ne {l : Bytes} {i v : Nat} (hi : i < l.length) (hv : v ≠ l.getD i 0) :
    l.set i v ≠ l := by
  induction l generalizing i with
  | nil => simp at hi
  | cons b rest ih =>
    cases i with
    | zero =>
      intro h
      exact hv (by simpa using congrArg (fun t => t.getD 0 0) h)
    | succ j =>
      intro h
      have hj : j < rest.length := by simpa using hi
      have hv2 : v ≠ rest.getD j 0 := by simpa using hv
      exact ih hj hv2 (by simpa using h)

/-- Verification of any same-length signature reduces to an equality test. -/
theorem TwitchApiClient.verify_eq_decide (secret messageId timestamp body p : Bytes)
    (hp : p.length = 71) :
    TwitchApiClient.verifyTwitchSignature secret messageId timestamp body p
      = some (decide (TwitchApiClient.computedSignature secret messageId timestamp body = p)) := by
  simp [TwitchApiClient.verifyTwitchSignature, timingSafeEqual,
    TwitchApiClient.computedSignature_length, hp]

/-! ## Claims -/

/-- C1: for every message id, timestamp, raw body and provided signature of
the well-formed length (71 bytes), `verifyTwitchSignature` returns true
exactly when the provided signature is `sha256=` followed by the lowercase hex
HMAC-SHA256 of `(messageId, timestamp, body)` under the secret; any other
same-length signature — in particular every single-bit flip of the correct
one — yields false. -/
theorem C1_verifyTwitchSignature_exact (secret messageId timestamp body provided : Bytes)
    (hlen : provided.length = 71) :
    (TwitchApiClient.verifyTwitchSignature secret messageId timestamp body provided = some true
       ↔ provided = TwitchApiClient.computedSignature secret messageId timestamp body) ∧
    (provided ≠ TwitchApiClient.computedSignature secret messageId timestamp body →
       TwitchApiClient.verifyTwitchSignature secret messageId timestamp body provided
         = some false) ∧
    (∀ i k, i < 71 → k < 8 →
       TwitchApiClient.verifyTwitchSignature secret messageId timestamp body
         (flipBit (TwitchApiClient.computedSignature secret messageId timestamp body) i k)
         = some false) := by
  have hc := TwitchApiClient.computedSignature_length secret messageId timestamp body
  refine ⟨?_, ?_, ?_⟩
  · rw [TwitchApiClient.verify_eq_decide secret messageId timestamp body provided hlen]
    simp [eq_comm]
  · intro hne
    rw [TwitchApiClient.verify_eq_decide secret messageId timestamp body provided hlen]
    simp [Ne.symm hne]
  · intro i k hi hk
    have hflen :
        (flipBit (TwitchApiClient.computedSignature secret messageId timestamp body) i k).length
          = 71 := by
      simp [flipBit, hc]
    rw [TwitchApiClient.verify_eq_decide secret messageId timestamp body _ hflen]
    have hmask : (1 <<< k) ≠ 0 := by
      simp [Nat.shiftLeft_eq]
    have hne : flipBit (TwitchApiClient.computedSignature secret messageId timestamp body) i k
        ≠ TwitchApiClient.computedSignature secret messageId timestamp body :=
      set_ne_of_ne (by rw [hc]; exact hi) (xor_ne_self_of_ne_zero hmask)
    simp [Ne.symm hne]

/-- C1 witness: at concrete inputs the exact computed signature verifies. -/
theorem C1_witness :
    TwitchApiClient.verifyTwitchSignature (ascii "s3cret") (ascii "msg-id") (ascii "2024")
      (ascii "body")
      (TwitchApiClient.computedSignature (ascii "s3cret") (ascii "msg-id") (ascii "2024")
        (ascii "body")) = some true :=
  (C1_verifyTwitchSignature_exact (ascii "s3cret") (ascii "msg-id") (ascii "2024") (ascii "body")
      (TwitchApiClient.computedSignature (ascii "s3cret") (ascii "msg-id") (ascii "2024")
        (ascii "body"))
      (TwitchApiClient.computedSignature_length (ascii "s3cret") (ascii "msg-id") (ascii "2024")
        (ascii "body"))).1.mpr rfl

/-- C10: a provided Twitch signature whose byte length differs from the
71-byte computed signature string makes `verifyTwitchSignature` throw
(`crypto.timingSafeEqual` requires equal-length buffers; modelled `none`)
rather than return false, so the handler ends in an uncaught throw with no
response — unlike an invalid same-length signature, which is answered 403. -/
theorem C10_length_mismatch_throws (secret provided : Bytes)
    (hlen : provided.length ≠ 71) :
    (∀ messageId timestamp body : Bytes,
       TwitchApiClient.verifyTwitchSignature secret messageId timestamp body provided = none) ∧
    (∀ (req : TwitchRequest) (mid ts : Bytes),
       req.messageId = some mid → mid ≠ [] →
       req.timestamp = some ts → ts ≠ [] →
       req.signature = some provided → provided ≠ [] →
       handleTwitchPost secret req
         = [.verifyAttempt .twitch, .throwUncaught]) ∧
    (∀ (req : TwitchRequest) (mid ts p2 : Bytes),
       req.messageId = some mid → mid ≠ [] →
       req.timestamp = some ts → ts ≠ [] →
       req.signature = some p2 → p2.length = 71 →
       p2 ≠ TwitchApiClient.computedSignature secret mid ts req.rawBody →
       handleTwitchPost secret req
         = [.verifyAttempt .twitch, .respond 403 none]) := by
  have hver : ∀ messageId timestamp body : Bytes,
      TwitchApiClient.verifyTwitchSignature secret messageId timestamp body provided = none := by
    intro messageId timestamp body
    simp only [TwitchApiClient.verifyTwitchSignature, timingSafeEqual,
      TwitchApiClient.computedSignature_length]
    rw [if_neg]
    exact fun h => hlen h.symm
  refine ⟨hver, ?_, ?_⟩
  · intro req mid ts hmid hmidne hts htsne hsig hsigne
    simp [handleTwitchPost, hmid, hts, hsig, headerFalsy, hmidne, htsne, hsigne, hver]
  · intro req mid ts p2 hmid hmidne hts htsne hsig hp2len hp2ne
    have hne : p2 ≠ [] := by
      intro h
      rw [h] at hp2len
      simp at hp2len
    simp [handleTwitchPost, hmid, hts, hsig, headerFalsy, hmidne, htsne, hne,
      TwitchApiClient.verify_eq_decide secret mid ts req.rawBody p2 hp2len, Ne.symm hp2ne]

/-- C10 witness: a 3-byte signature header throws instead of returning false. -/
theorem C10_witness :
    TwitchApiClient.verifyTwitchSignature (ascii "s3cret") (ascii "msg-id") (ascii "2024")
      (ascii "body") (ascii "abc") = none :=
  (C10_length_mismatch_throws (ascii "s3cret") (ascii "abc") (by decide)).1
    (ascii "msg-id") (ascii "2024") (ascii "body")

/-- C6: for every token, `isTokenExpired` is true iff
`now > obtainedAt + (expiresIn - 60) * 1000`; at exactly the threshold the
token is non-expired; a missing token is always expired — for both the Twitch
client and the Kick OAuth-variant client, whose formulas are identical. -/
theorem C6_isTokenExpired_formula :
    (∀ (t : TwitchApiClient.TwitchToken) (now : Int),
       TwitchApiClient.isTokenExpired (some t) now = true
         ↔ now > t.obtainmentTimestamp + (t.expiresIn - 60) * 1000) ∧
    (∀ t : TwitchApiClient.TwitchToken,
       TwitchApiClient.isTokenExpired (some t)
         (t.obtainmentTimestamp + (t.expiresIn - 60) * 1000) = false) ∧
    (∀ now : Int, TwitchApiClient.isTokenExpired none now = true) ∧
    (∀ (t : KickOAuth.KickToken) (now : Int),
       KickOAuth.isTokenExpired (some t) now = true
         ↔ now > t.obtainmentTimestamp + (t.expiresIn - 60) * 1000) ∧
    (∀ t : KickOAuth.KickToken,
       KickOAuth.isTokenExpired (some t)
         (t.obtainmentTimestamp + (t.expiresIn - 60) * 1000) = false) ∧
    (∀ now : Int, KickOAuth.isTokenExpired none now = true) := by
  refine ⟨?_, ?_, ?_, ?_, ?_, ?_⟩
  · intro t now
    simp [TwitchApiClient.isTokenExpired]
  · intro t
    simp [TwitchApiClient.isTokenExpired]
  · intro now
    rfl
  · intro t now
    simp [KickOAuth.isTokenExpired]
  · intro t
    simp [KickOAuth.isTokenExpired]
  · intro now
    rfl

/-- A nonempty header value is not falsy. -/
theorem headerFalsy_some_of_ne_nil {b : Bytes} (h : b ≠ []) : headerFalsy (some b) = false := by
  cases b with
  | nil => exact absurd rfl h
  | cons x t => rfl

/-- In every trace the Twitch handler can produce, no response is sent after
the pipeline has started. -/
theorem handleTwitchPost_noRespondAfterStart (secret : Bytes) (req : TwitchRequest) :
    noRespondAfterStart (handleTwitchPost secret req) = true := by
  unfold handleTwitchPost
  repeat' split <;> try rfl

/-- In every trace the Kick handler can produce, no response is sent after the
pipeline has started. -/
theorem handleKickPost_noRespondAfterStart (publicKey : Option Bytes)
    (rsaVerify : Bytes → Bytes → Bytes → Bool) (req : KickRequest) :
    noRespondAfterStart (handleKickPost publicKey rsaVerify req) = true := by
  unfold handleKickPost
  repeat' split <;> try rfl

/-- C2: a validly signed Twitch notification whose body carries broadcaster id
X produces the trace verify-attempt, 200 response, pipeline start for
(`twitch`, X) — in that order, so the 200 is sent before `sendMessage` begins —
and no trace the handler can produce ever responds after the pipeline start. -/
theorem C2_notification_ack_before_pipeline (secret : Bytes) (req : TwitchRequest)
    (mid ts X : Bytes)
    (hmid : req.messageId = some mid) (hmidne : mid ≠ [])
    (hts : req.timestamp = some ts) (htsne : ts ≠ [])
    (hsig : req.signature
      = some (TwitchApiClient.computedSignature secret mid ts req.rawBody))
    (htype : req.messageType = some (ascii "notification"))
    (hbid : req.bodyEventBroadcasterUserId = some X) :
    handleTwitchPost secret req
      = [.verifyAttempt .twitch, .respond 200 none, .startPipeline .twitch X] ∧
    (∀ (secret2 : Bytes) (req2 : TwitchRequest),
       noRespondAfterStart (handleTwitchPost secret2 req2) = true) := by
  refine ⟨?_, handleTwitchPost_noRespondAfterStart⟩
  have h1 : ascii "notification" ≠ ascii "webhook_callback_verification" := by decide
  have h2 : ascii "notification" ≠ ascii "revocation" := by decide
  simp [handleTwitchPost, hmid, hts, hsig, htype, hbid,
    headerFalsy_some_of_ne_nil hmidne, headerFalsy_some_of_ne_nil htsne,
    headerFalsy_some_of_ne_nil (TwitchApiClient.computedSignature_ne_nil secret mid ts req.rawBody),
    TwitchApiClient.verify_computedSignature, h1, h2]

/-- C2 witness: a concrete validly signed notification request. -/
theorem C2_witness :
    handleTwitchPost (ascii "s3cret")
      { messageId := some (ascii "mid-1"), timestamp := some (ascii "2024-01-01"),
        signature := some (TwitchApiClient.computedSignature (ascii "s3cret") (ascii "mid-1")
          (ascii "2024-01-01") (ascii "rawbody")),
        messageType := some (ascii "notification"), rawBody := ascii "rawbody",
        bodyChallenge := none, bodyEventBroadcasterUserId := some (ascii "123") }
      = [.verifyAttempt .twitch, .respond 200 none, .startPipeline .twitch (ascii "123")] :=
  (C2_notification_ack_before_pipeline (ascii "s3cret") _ (ascii "mid-1") (ascii "2024-01-01")
    (ascii "123") rfl (by decide) rfl (by decide) rfl rfl rfl).1

/-- C9: a validly signed Twitch `webhook_callback_verification` request whose
body has challenge C is answered 200 with body exactly C (and nothing else
happens). -/
theorem C9_challenge_echo (secret : Bytes) (req : TwitchRequest) (mid ts C : Bytes)
    (hmid : req.messageId = some mid) (hmidne : mid ≠ [])
    (hts : req.timestamp = some ts) (htsne : ts ≠ [])
    (hsig : req.signature
      = some (TwitchApiClient.computedSignature secret mid ts req.rawBody))
    (htype : req.messageType = some (ascii "webhook_callback_verification"))
    (hchal : req.bodyChallenge = some C) :
    handleTwitchPost secret req = [.verifyAttempt .twitch, .respond 200 (some C)] := by
  simp [handleTwitchPost, hmid, hts, hsig, htype, hchal,
    headerFalsy_some_of_ne_nil hmidne, headerFalsy_some_of_ne_nil htsne,
    headerFalsy_some_of_ne_nil (TwitchApiClient.computedSignature_ne_nil secret mid ts req.rawBody),
    TwitchApiClient.verify_computedSignature]

/-- C9 witness: a concrete challenge request echoing `abc123`. -/
theorem C9_witness :
    handleTwitchPost (ascii "s3cret")
      { messageId := some (ascii "mid-1"), timestamp := some (ascii "2024-01-01"),
        signature := some (TwitchApiClient.computedSignature (ascii "s3cret") (ascii "mid-1")
          (ascii "2024-01-01") (ascii "rawbody")),
        messageType := some (ascii "webhook_callback_verification"),
        rawBody := ascii "rawbody",
        bodyChallenge := some (ascii "abc123"), bodyEventBroadcasterUserId := none }
      = [.verifyAttempt .twitch, .respond 200 (some (ascii "abc123"))] :=
  C9_challenge_echo (ascii "s3cret") _ (ascii "mid-1") (ascii "2024-01-01") (ascii "abc123")
    rfl (by decide) rfl (by decide) rfl rfl rfl

/-- C3 counterexample: a Kick request presenting message id, timestamp and
signature but lacking the `kick-event-type` header (a header the claim calls
required) is not rejected with 400 before verification: the signature IS
verified (here failing, because no public key is loaded) and the response is
403, not 400. -/
theorem C3_counterexample :
    handleKickPost none (fun _ _ _ => false)
      { messageId := some (ascii "mid-1"), timestamp := some (ascii "2024-01-01"),
        signature := some (ascii "c2ln"), eventType := none,
        rawBody := [], bodyBroadcasterUserId := none }
      = [.verifyAttempt .kick, .respond 403 none] ∧
    hasVerifyAttempt
      (handleKickPost none (fun _ _ _ => false)
        { messageId := some (ascii "mid-1"), timestamp := some (ascii "2024-01-01"),
          signature := some (ascii "c2ln"), eventType := none,
          rawBody := [], bodyBroadcasterUserId := none }) = true ∧
    hasRespondStatus 400
      (handleKickPost none (fun _ _ _ => false)
        { messageId := some (ascii "mid-1"), timestamp := some (ascii "2024-01-01"),
          signature := some (ascii "c2ln"), eventType := none,
          rawBody := [], bodyBroadcasterUserId := none }) = false := by
  refine ⟨rfl, rfl, rfl⟩

/-- C3 amended: for both endpoints, if the message id, timestamp or signature
header is absent the endpoint responds 400 and never attempts verification;
but the Kick event-type header is not among the pre-verification checks — a
Kick request missing only `kick-event-type` has its signature verified and is
answered 200 (valid) or 403 (invalid), never 400. -/
theorem C3_amended :
    (∀ (secret : Bytes) (req : TwitchRequest),
       req.messageId = none ∨ req.timestamp = none ∨ req.signature = none →
       handleTwitchPost secret req = [.respond 400 none]) ∧
    (∀ (publicKey : Option Bytes) (rsaVerify : Bytes → Bytes → Bytes → Bool)
       (req : KickRequest),
       req.messageId = none ∨ req.timestamp = none ∨ req.signature = none →
       handleKickPost publicKey rsaVerify req = [.respond 400 none]) ∧
    (∀ (publicKey : Option Bytes) (rsaVerify : Bytes → Bytes → Bytes → Bool)
       (req : KickRequest) (mid ts sg : Bytes),
       req.messageId = some mid → mid ≠ [] →
       req.timestamp = some ts → ts ≠ [] →
       req.signature = some sg → sg ≠ [] →
       req.eventType = none →
       (KickApiClient.verifyKickSignature publicKey rsaVerify mid ts req.rawBody sg = true →
          handleKickPost publicKey rsaVerify req = [.verifyAttempt .kick, .respond 200 none]) ∧
       (KickApiClient.verifyKickSignature publicKey rsaVerify mid ts req.rawBody sg = false →
          handleKickPost publicKey rsaVerify req
            = [.verifyAttempt .kick, .respond 403 none])) := by
  refine ⟨?_, ?_, ?_⟩
  · intro secret req h
    rcases h with h | h | h <;> simp [handleTwitchPost, h, headerFalsy]
  · intro publicKey rsaVerify req h
    rcases h with h | h | h <;> simp [handleKickPost, h, headerFalsy]
  · intro publicKey rsaVerify req mid ts sg hmid hmidne hts htsne hsig hsigne htype
    constructor
    · intro hv
      simp [handleKickPost, hmid, hts, hsig, htype, hv,
        headerFalsy_some_of_ne_nil hmidne, headerFalsy_some_of_ne_nil htsne,
        headerFalsy_some_of_ne_nil hsigne]
    · intro hv
      simp [handleKickPost, hmid, hts, hsig, htype, hv,
        headerFalsy_some_of_ne_nil hmidne, headerFalsy_some_of_ne_nil htsne,
        headerFalsy_some_of_ne_nil hsigne]

/-- C3 witness: a Twitch request missing its message id header is answered 400,
and a header-complete Kick request without an event type but with an (unverifiable)
signature is answered 403. -/
theorem C3_witness :
    handleTwitchPost (ascii "s3cret")
      { messageId := none, timestamp := some (ascii "2024-01-01"),
        signature := some (ascii "sha256=00"), messageType := some (ascii "notification"),
        rawBody := [], bodyChallenge := none, bodyEventBroadcasterUserId := none }
      = [.respond 400 none] ∧
    handleKickPost none (fun _ _ _ => false)
      { messageId := some (ascii "mid-1"), timestamp := some (ascii "2024-01-01"),
        signature := some (ascii "c2ln"), eventType := none,
        rawBody := [], bodyBroadcasterUserId := none }
      = [.verifyAttempt .kick, .respond 403 none] :=
  ⟨C3_amended.1 (ascii "s3cret") _ (Or.inl rfl),
   (C3_amended.2.2 none (fun _ _ _ => false) _ (ascii "mid-1") (ascii "2024-01-01")
      (ascii "c2ln") rfl (by decide) rfl (by decide) rfl (by decide) rfl).2 rfl⟩

/-- A successful attempt ends the retry loop with the current sleep total. -/
theorem retryGo_success (outcome : Nat → AttemptResult) (delay attempt r slept : Nat)
    (d : NormalizedStreamData) (h : outcome attempt = .success d) :
    retryGo outcome delay attempt (r + 1) slept = ⟨some d, attempt, slept⟩ := by
  simp [retryGo, h]

/-- A not-live / not-found attempt sleeps `delay` and retries. -/
theorem retryGo_notLive (outcome : Nat → AttemptResult) (delay attempt r slept : Nat)
    (h : outcome attempt = .notLive) :
    retryGo outcome delay attempt (r + 1) slept
      = retryGo outcome delay (attempt + 1) r (slept + delay) := by
  simp [retryGo, h]

/-- A thrown (caught) attempt retries immediately without sleeping. -/
theorem retryGo_thrown (outcome : Nat → AttemptResult) (delay attempt r slept : Nat)
    (h : outcome attempt = .thrown) :
    retryGo outcome delay attempt (r + 1) slept
      = retryGo outcome delay (attempt + 1) r slept := by
  simp [retryGo, h]

/-- The retry loop makes at most `attempt - 1 + r` attempts. -/
theorem retryGo_attempts_le (outcome : Nat → AttemptResult) (delay : Nat) :
    ∀ (r attempt slept : Nat),
      (retryGo outcome delay attempt r slept).attemptsMade ≤ attempt - 1 + r := by
  intro r
  induction r with
  | zero =>
    intro attempt slept
    simp [retryGo]
  | succ r ih =>
    intro attempt slept
    cases h : outcome attempt with
    | success d =>
      rw [retryGo_success outcome delay attempt r slept d h]
      simp
      omega
    | notLive =>
      rw [retryGo_notLive outcome delay attempt r slept h]
      have := ih (attempt + 1) (slept + delay)
      omega
    | thrown =>
      rw [retryGo_thrown outcome delay attempt r slept h]
      have := ih (attempt + 1) slept
      omega

/-- If every attempt in the budget fails, the retry loop returns null. -/
theorem retryGo_result_none (outcome : Nat → AttemptResult) (delay : Nat) :
    ∀ (r attempt slept : Nat),
      (∀ n, attempt ≤ n → n < attempt + r → (outcome n).isFail = true) →
      (retryGo outcome delay attempt r slept).result = none := by
  intro r
  induction r with
  | zero =>
    intro attempt slept _
    simp [retryGo]
  | succ r ih =>
    intro attempt slept h
    have h0 := h attempt (le_refl _) (by omega)
    cases ho : outcome attempt with
    | success d =>
      rw [ho] at h0
      simp [AttemptResult.isFail] at h0
    | notLive =>
      rw [retryGo_notLive outcome delay attempt r slept ho]
      exact ih (attempt + 1) (slept + delay) (fun n h1 h2 => h n (by omega) (by omega))
    | thrown =>
      rw [retryGo_thrown outcome delay attempt r slept ho]
      exact ih (attempt + 1) slept (fun n h1 h2 => h n (by omega) (by omega))

/-- C4 counterexample: when the first 5 attempts fail with a transport error
(caught by the `catch` block) and the 6th succeeds, the pipeline returns the
6th result after a total sleep of 0 ms — not the (at least) 5 × 5000 ms the
claim requires for 5 failed attempts, because the error path retries without
any delay. -/
theorem C4_counterexample :
    getStreamWithRetry
        (fun n => if n ≤ 5 then .thrown else .success ⟨[], [], [], [], [], []⟩) 6 5000
      = ⟨some ⟨[], [], [], [], [], []⟩, 6, 0⟩ ∧
    (getStreamWithRetry
        (fun n => if n ≤ 5 then .thrown else .success ⟨[], [], [], [], [], []⟩) 6 5000).totalDelay
      < 5 * 5000 := by
  refine ⟨by decide, by decide⟩

/-- C4 amended: `getStreamWithRetry` makes at most 6 attempts; the 5000 ms
delay separates consecutive attempts only after a not-live / not-found
failure, while a thrown transport error retries immediately with no delay; if
the first 5 attempts fail not-live and the 6th succeeds it returns the 6th
attempt's result with a total sleep of 5 × 5000 ms; if all 6 attempts fail
(either way) it returns null. -/
theorem C4_amended (outcome : Nat → AttemptResult) (d : NormalizedStreamData)
    (h5 : ∀ n, 1 ≤ n → n ≤ 5 → outcome n = .notLive)
    (h6 : outcome 6 = .success d) :
    (∀ (out : Nat → AttemptResult) (retries delay : Nat),
       (getStreamWithRetry out retries delay).attemptsMade ≤ retries) ∧
    getStreamWithRetry outcome 6 5000 = ⟨some d, 6, 25000⟩ ∧
    (∀ out : Nat → AttemptResult,
       (∀ n, 1 ≤ n → n ≤ 6 → (out n).isFail = true) →
       (getStreamWithRetry out 6 5000).result = none) ∧
    (∀ (out : Nat → AttemptResult) (d2 : NormalizedStreamData),
       out 1 = .notLive → out 2 = .success d2 →
       getStreamWithRetry out 6 5000 = ⟨some d2, 2, 5000⟩) ∧
    (∀ (out : Nat → AttemptResult) (d2 : NormalizedStreamData),
       out 1 = .thrown → out 2 = .success d2 →
       getStreamWithRetry out 6 5000 = ⟨some d2, 2, 0⟩) := by
  refine ⟨?_, ?_, ?_, ?_, ?_⟩
  · intro out retries delay
    have := retryGo_attempts_le out delay retries 1 0
    simpa [getStreamWithRetry] using this
  · have e1 := h5 1 (by omega) (by omega)
    have e2 := h5 2 (by omega) (by omega)
    have e3 := h5 3 (by omega) (by omega)
    have e4 := h5 4 (by omega) (by omega)
    have e5 := h5 5 (by omega) (by omega)
    calc getStreamWithRetry outcome 6 5000
        = retryGo outcome 5000 2 5 5000 := retryGo_notLive outcome 5000 1 5 0 e1
      _ = retryGo outcome 5000 3 4 10000 := retryGo_notLive outcome 5000 2 4 5000 e2
      _ = retryGo outcome 5000 4 3 15000 := retryGo_notLive outcome 5000 3 3 10000 e3
      _ = retryGo outcome 5000 5 2 20000 := retryGo_notLive outcome 5000 4 2 15000 e4
      _ = retryGo outcome 5000 6 1 25000 := retryGo_notLive outcome 5000 5 1 20000 e5
      _ = ⟨some d, 6, 25000⟩ := retryGo_success outcome 5000 6 0 25000 d h6
  · intro out hfail
    exact retryGo_result_none out 5000 6 1 0 (fun n hn1 hn2 => hfail n hn1 (by omega))
  · intro out d2 hout1 hout2
    calc getStreamWithRetry out 6 5000
        = retryGo out 5000 2 5 5000 := retryGo_notLive out 5000 1 5 0 hout1
      _ = ⟨some d2, 2, 5000⟩ := retryGo_success out 5000 2 4 5000 d2 hout2
  · intro out d2 hout1 hout2
    calc getStreamWithRetry out 6 5000
        = retryGo out 5000 2 5 0 := retryGo_thrown out 5000 1 5 0 hout1
      _ = ⟨some d2, 2, 0⟩ := retryGo_success out 5000 2 4 0 d2 hout2

/-- C4 witness: five not-live attempts then a success returns the 6th result
with 25000 ms total sleep. -/
theorem C4_witness :
    getStreamWithRetry
        (fun n => if n ≤ 5 then .notLive else .success ⟨[], [], [], [], [], []⟩) 6 5000
      = ⟨some ⟨[], [], [], [], [], []⟩, 6, 25000⟩ :=
  (C4_amended (fun n => if n ≤ 5 then .notLive else .success ⟨[], [], [], [], [], []⟩)
      ⟨[], [], [], [], [], []⟩
      (fun n _ h2 => by simp [h2]) (by simp)).2.1

/-- C5: when every one of the 6 enrichment attempts fails, `sendMessage`
performs no outbound Discord webhook POST (no payload is produced) and returns
normally — the notification is dropped. -/
theorem C5_all_fail_no_discord_post (platform : Platform) (outcome : Nat → AttemptResult)
    (hfail : ∀ n, 1 ≤ n → n ≤ 6 → (outcome n).isFail = true) :
    sendMessage platform outcome = none := by
  have h : (getStreamWithRetry outcome 6 5000).result = none :=
    retryGo_result_none outcome 5000 6 1 0 (fun n hn1 hn2 => hfail n hn1 (by omega))
  simp [sendMessage, h]

/-- C5 witness: a permanently not-live stream produces no Discord payload. -/
theorem C5_witness : sendMessage .twitch (fun _ => .notLive) = none :=
  C5_all_fail_no_discord_post .twitch (fun _ => .notLive) (fun _ _ _ => rfl)

/-- Once the initialization promise exists (invariant: promise id 0, one
initialization started, instance absent or equal to the promised client),
every further event preserves the invariant and every further call resolves
to client 0. -/
theorem Singleton.run_after_first : ∀ (evs : List Singleton.Event) (s : Singleton.State),
    s.promise = some 0 → s.initCount = 1 → (s.inst = none ∨ s.inst = some 0) →
    ((Singleton.runEvents s evs).1.promise = some 0 ∧
     (Singleton.runEvents s evs).1.initCount = 1 ∧
     ((Singleton.runEvents s evs).1.inst = none ∨
      (Singleton.runEvents s evs).1.inst = some 0)) ∧
    (∀ x ∈ (Singleton.runEvents s evs).2, x = 0) := by
  intro evs
  induction evs with
  | nil =>
    intro s h1 h2 h3
    exact ⟨⟨h1, h2, h3⟩, by simp [Singleton.runEvents]⟩
  | cons e evs ih =>
    intro s h1 h2 h3
    cases e with
    | call =>
      have hstep : Singleton.getInstanceStep s = (s, 0) := by
        rcases h3 with h3 | h3 <;> simp [Singleton.getInstanceStep, h3, h1]
      simp only [Singleton.runEvents, hstep]
      obtain ⟨hD, hall⟩ := ih s h1 h2 h3
      refine ⟨hD, ?_⟩
      intro x hx
      rcases List.mem_cons.mp hx with rfl | hx2
      · rfl
      · exact hall x hx2
    | complete =>
      have hstep : Singleton.completeStep s = { s with inst := some 0 } := by
        simp [Singleton.completeStep, h1]
      simp only [Singleton.runEvents, hstep]
      exact ih { s with inst := some 0 } h1 h2 (Or.inr rfl)

/-- From the uninitialized static state, every call in the run resolves to
client 0 and the initialization logic runs exactly once as soon as any call
has happened (and never more than once). -/
theorem Singleton.run_from_uninitialized : ∀ (evs : List Singleton.Event) (s : Singleton.State),
    s.inst = none → s.promise = none → s.initCount = 0 →
    (∀ x ∈ (Singleton.runEvents s evs).2, x = 0) ∧
    ((Singleton.runEvents s evs).2 ≠ [] → (Singleton.runEvents s evs).1.initCount = 1) ∧
    (Singleton.runEvents s evs).1.initCount ≤ 1 := by
  intro evs
  induction evs with
  | nil =>
    intro s h1 h2 h3
    refine ⟨by simp [Singleton.runEvents], ?_, ?_⟩
    · intro h
      exact absurd (show (Singleton.runEvents s []).2 = [] by simp [Singleton.runEvents]) h
    · simp [Singleton.runEvents, h3]
  | cons e evs ih =>
    intro s h1 h2 h3
    cases e with
    | complete =>
      have hstep : Singleton.completeStep s = s := by
        simp [Singleton.completeStep, h2]
      simp only [Singleton.runEvents, hstep]
      exact ih s h1 h2 h3
    | call =>
      have hstep : Singleton.getInstanceStep s = (⟨none, some 0, 1⟩, 0) := by
        simp [Singleton.getInstanceStep, h1, h2, h3]
      simp only [Singleton.runEvents, hstep]
      obtain ⟨hD, hall⟩ :=
        Singleton.run_after_first evs ⟨none, some 0, 1⟩ rfl rfl (Or.inl rfl)
      refine ⟨?_, ?_, ?_⟩
      · intro x hx
        rcases List.mem_cons.mp hx with rfl | hx2
        · rfl
        · exact hall x hx2
      · intro _
        exact hD.2.1
      · exact le_of_eq hD.2.1

/-- C7: for every interleaving of concurrent `getInstance()` calls (and the
completion of the in-flight initialization) starting from the uninitialized
static state, every call resolves to the same client (id 0) and the
initialization logic runs exactly once when at least one call happened —
never more than once. -/
theorem C7_getInstance_once (evs : List Singleton.Event) :
    (∀ x ∈ (Singleton.runEvents Singleton.initial evs).2, x = 0) ∧
    ((Singleton.runEvents Singleton.initial evs).2 ≠ [] →
       (Singleton.runEvents Singleton.initial evs).1.initCount = 1) ∧
    (Singleton.runEvents Singleton.initial evs).1.initCount ≤ 1 :=
  Singleton.run_from_uninitialized evs Singleton.initial rfl rfl rfl

/-- C7 witness: two concurrent first calls, the completion, then a late call
leave exactly one initialization. -/
theorem C7_witness :
    (Singleton.runEvents Singleton.initial
        [.call, .call, .complete, .call]).1.initCount = 1 :=
  (C7_getInstance_once [.call, .call, .complete, .call]).2.1 (by decide)

/-- C8: when a Kick user-token refresh gets a non-2xx response, the stored
token is cleared (memory nulled, persisted file deleted), exactly one refresh
request was issued (no retry), and every subsequent `getValidAccessToken`
fails demanding re-authentication instead of returning a token. -/
theorem C8_refresh_failure_clears_token (s : KickOAuth.ClientState)
    (t : KickOAuth.KickToken) (now : Int)
    (hs : s.userToken = some t) (hrt : t.refreshToken ≠ []) :
    (KickOAuth.refreshToken s none now).1.userToken = none ∧
    (KickOAuth.refreshToken s none now).1.tokenFile = none ∧
    (KickOAuth.refreshToken s none now).2 = [.fetchRefresh] ∧
    (∀ (now2 : Int) (resp2 : Option KickOAuth.RawTokens),
       (KickOAuth.getValidAccessToken (KickOAuth.refreshToken s none now).1 now2 resp2).2
         = Except.error "No Kick user token found. Please authenticate via the dashboard.") := by
  have hie : t.refreshToken.isEmpty = false := by
    cases h : t.refreshToken with
    | nil => exact absurd h hrt
    | cons a l => rfl
  refine ⟨?_, ?_, ?_, ?_⟩ <;>
    simp [KickOAuth.refreshToken, hs, hie, KickOAuth.clearToken, KickOAuth.getValidAccessToken]

/-- C8 witness: a concrete failing refresh clears memory and disk and issues
one request. -/
theorem C8_witness :
    (KickOAuth.refreshToken
        ⟨some ⟨ascii "tok", ascii "ref", 3600, 0⟩, some ⟨ascii "tok", ascii "ref", 3600, 0⟩⟩
        none 99).1.userToken = none ∧
    (KickOAuth.refreshToken
        ⟨some ⟨ascii "tok", ascii "ref", 3600, 0⟩, some ⟨ascii "tok", ascii "ref", 3600, 0⟩⟩
        none 99).1.tokenFile = none ∧
    (KickOAuth.refreshToken
        ⟨some ⟨ascii "tok", ascii "ref", 3600, 0⟩, some ⟨ascii "tok", ascii "ref", 3600, 0⟩⟩
        none 99).2 = [.fetchRefresh] :=
  ⟨(C8_refresh_failure_clears_token _ ⟨ascii "tok", ascii "ref", 3600, 0⟩ 99 rfl (by decide)).1,
   (C8_refresh_failure_clears_token _ ⟨ascii "tok", ascii "ref", 3600, 0⟩ 99 rfl (by decide)).2.1,
   (C8_refresh_failure_clears_token _ ⟨ascii "tok", ascii "ref", 3600, 0⟩ 99 rfl (by decide)).2.2.1⟩
